import Mathlib

/-!
Shallow embedding of the real-time chat subsystem of the qdrant-rag-system
frontend: the chat conversation store (chat store module), the WebSocket
transport manager and chat protocol adapter (websocket service module), and
the chat interface wire-message handler (ChatInterface component).

JavaScript numbers that only flow through the state (timestamps, scores,
temperatures) are modelled as `Int` / `Rat`; no arithmetic is performed on
them. Asynchronous backend calls are modelled by passing their results as
`Except String` oracle parameters; `Date.now()` and ISO timestamps are
passed as explicit parameters.
-/

/-- A source citation attached to an assistant message (`Source`). -/
structure Source where
  index : Nat
  title : String
  article_id : Int ⊕ String
  chunk_index : Nat
  score : Rat
deriving DecidableEq, Repr

/-- A chat message (`ChatMessage`); `role` is the string union
`"user" | "assistant"` of the source. -/
structure ChatMessage where
  id : String
  session_id : String
  role : String
  content : String
  created_at : String
  response_time_ms : Option Int
  sources : Option (List Source)
  search_query : Option String
deriving DecidableEq, Repr

/-- A chat session (`ChatSession`). -/
structure ChatSession where
  id : String
  title : String
  created_at : String
  updated_at : String
  collection_name : String
  llm_model : String
  embedding_model : String
  temperature : Rat
  top_k : Nat
  min_score : Rat
  max_context_length : Nat
  max_tokens : Nat
  system_prompt : Option String
  show_sources : Bool
  message_count : Nat
deriving DecidableEq, Repr

/-- The ephemeral streaming buffer (`StreamingState`). -/
structure StreamingState where
  isStreaming : Bool
  currentContent : String
  statusMessage : String
  sources : List Source
deriving DecidableEq, Repr

/-- Connection status union of `ChatState`. -/
inductive ConnectionStatus where
  | connecting
  | connected
  | disconnected
  | error
deriving DecidableEq, Repr

/-- The chat store state (`ChatState`). -/
structure ChatState where
  currentSession : Option ChatSession
  sessions : List ChatSession
  messages : List ChatMessage
  isLoading : Bool
  connectionStatus : ConnectionStatus
  streaming : StreamingState
  lastError : Option String
deriving DecidableEq, Repr

/-- The store's initial state (`initialState`). -/
def chatInitialState : ChatState :=
  { currentSession := none
    sessions := []
    messages := []
    isLoading := false
    connectionStatus := ConnectionStatus.disconnected
    streaming := { isStreaming := false, currentContent := "", statusMessage := "", sources := [] }
    lastError := none }

/-- Payload of the `complete` wire event as consumed by
`finalizeStreamingMessage` (`{ response_time_ms?, sources? }`). -/
structure CompleteMetadata where
  response_time_ms : Option Int
  sources : Option (List Source)
deriving DecidableEq, Repr

/-- `chatActions.appendStreamingContent(content)`: set the streaming flag
and append the chunk to the accumulated streaming content. -/
def chatActions.appendStreamingContent (s : ChatState) (content : String) : ChatState :=
  { s with streaming :=
      { s.streaming with
        isStreaming := true
        currentContent := s.streaming.currentContent ++ content } }

/-- `chatActions.finalizeStreamingMessage(metadata)`: when the streaming
buffer is non-empty (JS truthiness of the accumulated string) and a current
session is set, append one assistant message built from the buffer and the
metadata and reset the streaming state; otherwise do nothing. `now` stands
for `Date.now()` and `nowISO` for `new Date().toISOString()`. -/
def chatActions.finalizeStreamingMessage (s : ChatState) (metadata : CompleteMetadata)
    (now : Int) (nowISO : String) : ChatState :=
  match s.currentSession with
  | some session =>
      if s.streaming.currentContent = "" then s
      else
        { s with
          messages := s.messages ++ [{
            id := "msg-" ++ toString now
            session_id := session.id
            role := "assistant"
            content := s.streaming.currentContent
            created_at := nowISO
            response_time_ms := metadata.response_time_ms
            sources := some (metadata.sources.getD s.streaming.sources)
            search_query := none }]
          streaming := { isStreaming := false, currentContent := "", statusMessage := "", sources := [] }
          isLoading := false }
  | none => s

/-- `chatActions.addErrorMessage(error)`: when a current session is set,
append one assistant message carrying the error text, reset the streaming
state and record the error. -/
def chatActions.addErrorMessage (s : ChatState) (error : String)
    (now : Int) (nowISO : String) : ChatState :=
  match s.currentSession with
  | some session =>
      { s with
        messages := s.messages ++ [{
          id := "error-" ++ toString now
          session_id := session.id
          role := "assistant"
          content := "❌ Error: " ++ error
          created_at := nowISO
          response_time_ms := none
          sources := none
          search_query := none }]
        streaming := { isStreaming := false, currentContent := "", statusMessage := "", sources := [] }
        isLoading := false
        lastError := some error }
  | none => s

/-- The local store update performed by `chatActions.deleteSession` after
the backend delete succeeds. -/
def chatActions.deleteSessionUpdate (s : ChatState) (sessionId : String) : ChatState :=
  { s with
    sessions := s.sessions.filter (fun sess => sess.id != sessionId)
    currentSession :=
      if s.currentSession.map ChatSession.id = some sessionId then none else s.currentSession
    messages :=
      if s.currentSession.map ChatSession.id = some sessionId then [] else s.messages }

/-- `chatActions.deleteSession(sessionId)`: awaits the backend delete
(result passed as `apiResult`); on success applies the local update, on
failure rethrows without touching the store. -/
def chatActions.deleteSession (s : ChatState) (sessionId : String)
    (apiResult : Except String Unit) : ChatState × Except String Unit :=
  match apiResult with
  | Except.ok _ => ( chatActions.deleteSessionUpdate s sessionId, Except.ok ())
  | Except.error e => (s, Except.error e)

/-- Delivering a list of `content` wire events to the store in arrival
order (each one routed to `appendStreamingContent`). -/
def deliverContents (s : ChatState) (cs : List String) : ChatState :=
  cs.foldl chatActions.appendStreamingContent s

/-- Concatenation of a list of content chunks in arrival order. -/
def concatAll (cs : List String) : String :=
  cs.foldr (fun a b => a ++ b) ""

/-!
The transport layer (`WebSocketService`). JSON values on the wire are
modelled by `JVal`, with JavaScript truthiness (`truthy`) and property
access (`JVal.getField`, yielding `none` for an absent property, the model
of `undefined`).
-/

/-- A JSON-ish JavaScript value. -/
inductive JVal where
  | vNull
  | vBool (b : Bool)
  | vNum (n : Int)
  | vStr (s : String)
  | vObj (fields : List (String × JVal))

/-- JavaScript truthiness of a value. -/
def truthy : JVal → Bool
  | JVal.vNull => false
  | JVal.vBool b => b
  | JVal.vNum n => n != 0
  | JVal.vStr s => s != ""
  | JVal.vObj _ => true

/-- Property access `v.name`: first matching field of an object, `none`
(undefined) otherwise. -/
def JVal.getField : JVal → String → Option JVal
  | JVal.vObj fields, name => fields.lookup name
  | _, _ => none

/-- Truthiness of a possibly-undefined value (`undefined` is falsy). -/
def truthyOpt (v : Option JVal) : Bool :=
  match v with
  | some w => truthy w
  | none => false

/-- `WebSocket.readyState` values. -/
inductive ReadyState where
  | CONNECTING
  | OPEN
  | CLOSING
  | CLOSED
deriving DecidableEq, Repr

/-- The mutable state of a `WebSocketService` instance: the three
per-endpoint maps (`connections`, `handlers`, `reconnectAttempts`),
modelled as association lists. Handlers are identified by opaque ids. -/
structure WSState where
  connections : List (String × ReadyState)
  handlers : List (String × List Nat)
  reconnectAttempts : List (String × Nat)
deriving DecidableEq, Repr

/-- Association-list lookup (first binding wins, as in `Map.get`). -/
def lookupA {α : Type} (l : List (String × α)) (k : String) : Option α :=
  l.lookup k

/-- Association-list removal (`Map.delete`). -/
def removeA {α : Type} (l : List (String × α)) (k : String) : List (String × α) :=
  l.filter (fun kv => kv.1 != k)

/-- Association-list update (`Map.set`). -/
def setA {α : Type} (l : List (String × α)) (k : String) (v : α) : List (String × α) :=
  (k, v) :: removeA l k

/-- `WebSocketService.send(endpoint, message)`: if the endpoint has an OPEN
connection, transmit either the message itself (when it already has truthy
`type` and `data` properties) or the `{type: "message", data, timestamp}`
wrapper; otherwise log a warning and do nothing. Returns the unchanged
state together with the transmitted frame, if any. `now` stands for
`Date.now()`. -/
def WebSocketService.send (s : WSState) (endpoint : String) (message : JVal)
    (now : Int) : WSState × Option JVal :=
  match lookupA s.connections endpoint with
  | some ReadyState.OPEN =>
      let payload :=
        if truthyOpt (JVal.getField message "type") && truthyOpt (JVal.getField message "data")
        then message
        else JVal.vObj [("type", JVal.vStr "message"), ("data", message), ("timestamp", JVal.vNum now)]
      (s, some payload)
  | _ => (s, none)

/-- `WebSocketService.disconnect(endpoint)`: when a connection exists,
close it with code 1000 and reason "Manual disconnect" and drop the
endpoint's connection, handlers and reconnect counter. Returns the new
state and the close code/reason issued, if any. -/
def WebSocketService.disconnect (s : WSState) (endpoint : String) :
    WSState × Option (Nat × String) :=
  match lookupA s.connections endpoint with
  | some _ =>
      ({ connections := removeA s.connections endpoint
         handlers := removeA s.handlers endpoint
         reconnectAttempts := removeA s.reconnectAttempts endpoint },
       some (1000, "Manual disconnect"))
  | none => (s, none)

/-- `ws.onopen` for `endpoint`: record the open connection and reset the
endpoint's reconnect counter to 0. -/
def WebSocketService.onopen (s : WSState) (endpoint : String) : WSState :=
  { s with
    connections := setA s.connections endpoint ReadyState.OPEN
    reconnectAttempts := setA s.reconnectAttempts endpoint 0 }

/-- `WebSocketService.attemptReconnect(endpoint)`: read the endpoint's
counter (0 when absent); below `maxReconnectAttempts = 5`, schedule one
reconnect after `reconnectDelay * 2^attempts` ms (the counter is bumped to
`attempts + 1` when the timer fires, folded into this step); at the cap,
abandon and delete the counter. Returns the new state and the scheduled
delay, `none` meaning abandonment. -/
def WebSocketService.attemptReconnect (s : WSState) (endpoint : String) :
    WSState × Option Nat :=
  let attempts := (lookupA s.reconnectAttempts endpoint).getD 0
  if attempts < 5 then
    ({ s with reconnectAttempts := setA s.reconnectAttempts endpoint (attempts + 1) },
     some (1000 * 2 ^ attempts))
  else
    ({ s with reconnectAttempts := removeA s.reconnectAttempts endpoint }, none)

/-- `ws.onclose` for `endpoint`: drop the connection entry; when the close
code differs from 1000 (abnormal closure), run `attemptReconnect`. -/
def WebSocketService.onclose (s : WSState) (endpoint : String) (code : Nat) :
    WSState × Option Nat :=
  let s1 : WSState := { s with connections := removeA s.connections endpoint }
  if code ≠ 1000 then WebSocketService.attemptReconnect s1 endpoint
  else (s1, none)

/-- The transport's delay trace: delays of the reconnect attempts scheduled
starting from counter value `a` when every attempt fails abnormally, until
abandonment at the cap of 5. -/
def transportDelaySeq (a : Nat) : List Nat :=
  if _h : a < 5 then 1000 * 2 ^ a :: transportDelaySeq (a + 1) else []
termination_by 5 - a
decreasing_by omega

/-- `ChatWebSocket.attemptReconnect` (the chat protocol adapter's own
retry loop): at `maxReconnectAttempts = 5` give up; otherwise bump the
instance counter and schedule a retry after
`min(1000 * 2^attempts, 30000)` ms. Returns the new counter and the
scheduled delay, or `none` on abandonment. -/
def ChatWebSocket.attemptReconnect (reconnectAttempts : Nat) : Option (Nat × Nat) :=
  if reconnectAttempts ≥ 5 then none
  else some (reconnectAttempts + 1, min (1000 * 2 ^ (reconnectAttempts + 1)) 30000)

/-- The adapter's delay trace from counter value `a`, when every retry
fails, until abandonment. -/
def adapterDelaySeq (a : Nat) : List Nat :=
  if _h : a < 5 then min (1000 * 2 ^ (a + 1)) 30000 :: adapterDelaySeq (a + 1) else []
termination_by 5 - a
decreasing_by omega

/-- `ChatWebSocket.sendMessage(message)`: the frame handed to
`WebSocketService.send` (`{type: "message", data: {message, timestamp}}`,
no top-level timestamp). -/
def ChatWebSocket.sendMessagePayload (message : String) (now : Int) : JVal :=
  JVal.vObj [("type", JVal.vStr "message"),
             ("data", JVal.vObj [("message", JVal.vStr message), ("timestamp", JVal.vNum now)])]

/-!
Session initialization (`chatActions.initializeSession` with no session
id). Backend calls are an oracle record; `localStorage` is the
`Option String` holding the remembered last session id.
-/

/-- The backend API surface used by session initialization, as an oracle of
call results: `GET /chat/sessions`, `GET /chat/sessions/{id}`,
`GET /chat/sessions/{id}/messages`, `POST /chat/sessions`. -/
structure ChatApi where
  getSessions : Except String (List ChatSession)
  getSession : String → Except String ChatSession
  getMessages : String → Except String (List ChatMessage)
  createSession : Except String ChatSession

/-- Outcome of an async store action: the resulting store state, the
resulting `localStorage` content, and resolution or rejection. -/
structure ActionResult where
  state : ChatState
  storage : Option String
  result : Except String Unit

/-- `chatActions.initialize()`: set loading, try `loadSessions` (which on
success replaces the session list and on failure rethrows), record the
error message of a failure (the error is swallowed), clear loading. Never
rejects. -/
def chatActions.initStore (s : ChatState) (api : ChatApi) : ChatState :=
  let s1 := { s with isLoading := true, lastError := none }
  let s2 :=
    match api.getSessions with
    | Except.ok sessions => { s1 with sessions := sessions }
    | Except.error e => { s1 with lastError := some e }
  { s2 with isLoading := false }

/-- `chatActions.loadSession(sessionId)`: set loading, fetch the session
then its messages; on success install them as current, clear loading and
remember the id in local storage; on failure record the error, clear
loading and reject. -/
def chatActions.loadSession (s : ChatState) (storage : Option String)
    (api : ChatApi) (sessionId : String) : ActionResult :=
  let s1 := { s with isLoading := true, lastError := none }
  match api.getSession sessionId with
  | Except.error e =>
      { state := { s1 with lastError := some e, isLoading := false }
        storage := storage
        result := Except.error e }
  | Except.ok session =>
      match api.getMessages sessionId with
      | Except.error e =>
          { state := { s1 with lastError := some e, isLoading := false }
            storage := storage
            result := Except.error e }
      | Except.ok msgs =>
          { state := { s1 with currentSession := some session, messages := msgs, isLoading := false }
            storage := some sessionId
            result := Except.ok () }

/-- `chatActions.createNewSession()` (no options): set loading, create a
session on the backend; on success it becomes current with an empty
transcript, is prepended to the session list and remembered in local
storage; on failure record the error and reject. -/
def chatActions.createNewSession (s : ChatState) (storage : Option String)
    (api : ChatApi) : ActionResult :=
  let s1 := { s with isLoading := true, lastError := none }
  match api.createSession with
  | Except.error e =>
      { state := { s1 with lastError := some e, isLoading := false }
        storage := storage
        result := Except.error e }
  | Except.ok session =>
      { state :=
          { s1 with
            currentSession := some session
            sessions := session :: s1.sessions
            messages := []
            isLoading := false }
        storage := some session.id
        result := Except.ok () }

/-- The session-selection chain of `initializeSession()` when no id is
given: the remembered last session id when truthy and still present among
the loaded sessions, else the most recent session's id, subject to the
final JS truthiness test (an empty-string id counts as no session). -/
def chooseSessionToLoad (storage : Option String) (sessions : List ChatSession) :
    Option String :=
  let sessionToLoad0 : Option String :=
    match storage with
    | some lid =>
        if lid != "" && sessions.any (fun sess => sess.id == lid) then some lid else none
    | none => none
  let sessionToLoad1 : Option String :=
    match sessionToLoad0 with
    | some lid => some lid
    | none =>
        match sessions with
        | sess :: _ => some sess.id
        | [] => none
  match sessionToLoad1 with
  | some sid => if sid != "" then some sid else none
  | none => none

/-- `chatActions.initializeSession()` called with no session id: run
`initialize`, pick a session to resume via the fallback chain, then either
load it (re-remembering it on success) or create a new session. -/
def initializeSessionNoId (s : ChatState) (storage : Option String)
    (api : ChatApi) : ActionResult :=
  let s1 := chatActions.initStore s api
  match chooseSessionToLoad storage s1.sessions with
  | some sid =>
      let r := chatActions.loadSession s1 storage api sid
      match r.result with
      | Except.ok _ => { r with storage := some sid }
      | Except.error _ => r
  | none => chatActions.createNewSession s1 storage api

/-- The backend is entirely unreachable: every call of the API surface
rejects. -/
def ChatApi.entirelyUnreachable (api : ChatApi) : Prop :=
  (∀ l, api.getSessions ≠ Except.ok l) ∧
  (∀ sid sess, api.getSession sid ≠ Except.ok sess) ∧
  (∀ sid msgs, api.getMessages sid ≠ Except.ok msgs) ∧
  (∀ sess, api.createSession ≠ Except.ok sess)

/-- A frame conforms to the documented wire envelope
`{type: string, data: any, timestamp: number}`. -/
def isEnvelope (v : JVal) : Bool :=
  (match JVal.getField v "type" with
   | some (JVal.vStr _) => true
   | _ => false) &&
  (JVal.getField v "data").isSome &&
  (match JVal.getField v "timestamp" with
   | some (JVal.vNum _) => true
   | _ => false)

/-!
The ChatInterface wire-message handler (`handleWebSocketMessage`),
restricted to the `error` case, together with the notification side
channel (`notificationActions.error`).
-/

/-- A UI notification (`notificationActions`); `kind` is the notification
type. -/
structure Notification where
  kind : String
  title : String
  message : String
deriving DecidableEq, Repr

/-- The observable effect of one handler invocation: the store state, the
notification list, the typing flag, and whether the handler closed the
WebSocket connection. -/
structure HandlerEffect where
  state : ChatState
  notifications : List Notification
  isTyping : Bool
  closedConnection : Bool

/-- `handleWebSocketMessage` on an `error` wire message carrying `err`:
clear the typing flag, route the text to `chatActions.addErrorMessage`,
raise an error notification titled "Chat Error". The branch performs no
close call on the connection. -/
def ChatInterface.handleErrorMessage (s : ChatState) (notifs : List Notification)
    (err : String) (now : Int) (nowISO : String) : HandlerEffect :=
  { state := chatActions.addErrorMessage s err now nowISO
    notifications := notifs ++ [{ kind := "error", title := "Chat Error", message := err }]
    isTyping := false
    closedConnection := false }

/-!
Concrete sample values used by witnesses and counterexamples.
-/

/-- A concrete chat session. -/
def sampleSession : ChatSession :=
  { id := "sess-1"
    title := "New Chat"
    created_at := "2026-01-01T00:00:00Z"
    updated_at := "2026-01-02T00:00:00Z"
    collection_name := "docs"
    llm_model := "llama"
    embedding_model := "minilm"
    temperature := 0
    top_k := 5
    min_score := 0
    max_context_length := 1000
    max_tokens := 256
    system_prompt := none
    show_sources := true
    message_count := 0 }

/-- A store state with `sampleSession` current and an idle streaming
buffer. -/
def sampleState : ChatState :=
  { chatInitialState with
    currentSession := some sampleSession
    sessions := [sampleSession] }

/-- A store state mid-stream whose buffer is empty but whose status
message and streaming flag are set. -/
def streamIdleState : ChatState :=
  { sampleState with
    streaming := { isStreaming := true, currentContent := "", statusMessage := "Searching", sources := [] } }

/-- A store state mid-stream with a non-empty buffer. -/
def streamBusyState : ChatState :=
  { sampleState with
    streaming := { isStreaming := true, currentContent := "Hi", statusMessage := "Generating", sources := [] } }

/-- A transport state with one OPEN connection and reconnect counter 2 for
the chat endpoint. -/
def wsSampleState : WSState :=
  { connections := [("/chat/sess-1", ReadyState.OPEN)]
    handlers := [("/chat/sess-1", [0])]
    reconnectAttempts := [("/chat/sess-1", 2)] }

/-- A transport state with one OPEN connection and no reconnect counter. -/
def wsOpenState : WSState :=
  { connections := [("/chat/sess-1", ReadyState.OPEN)]
    handlers := []
    reconnectAttempts := [] }

/-- A transport state with no connections at all. -/
def wsEmptyState : WSState :=
  { connections := [], handlers := [], reconnectAttempts := [] }

/-- An outbound object whose `type` field is truthy but whose `data` field
is the falsy number 0. -/
def falsyDataMsg : JVal :=
  JVal.vObj [("type", JVal.vStr "ping"), ("data", JVal.vNum 0)]

/-- A backend oracle that lists no sessions but creates one. -/
def okApi : ChatApi :=
  { getSessions := Except.ok []
    getSession := fun _ => Except.error "not found"
    getMessages := fun _ => Except.error "not found"
    createSession := Except.ok sampleSession }

/-- A backend oracle that is reachable (session listing succeeds) but whose
session creation fails. -/
def cexApi : ChatApi :=
  { getSessions := Except.ok []
    getSession := fun _ => Except.error "not found"
    getMessages := fun _ => Except.error "not found"
    createSession := Except.error "server error" }

/-!
Helper lemmas.
-/

/-- Effect of delivering a list of `content` events: the buffer grows by
their concatenation, the streaming flag aside everything else is kept. -/
theorem deliverContents_spec (cs : List String) (s : ChatState) :
    (deliverContents s cs).streaming.currentContent
        = s.streaming.currentContent ++ concatAll cs ∧
    (deliverContents s cs).streaming.sources = s.streaming.sources ∧
    (deliverContents s cs).messages = s.messages ∧
    (deliverContents s cs).currentSession = s.currentSession := by
  induction cs generalizing s with
  | nil =>
      simp [deliverContents, concatAll]
  | cons c rest ih =>
      have h := ih ( chatActions.appendStreamingContent s c)
      simp only [deliverContents, List.foldl_cons] at h ⊢
      simpa [chatActions.appendStreamingContent, concatAll, String.append_assoc] using h

/-- Removing a key makes its lookup undefined. -/
theorem lookupA_removeA {α : Type} (l : List (String × α)) (k : String) :
    lookupA (removeA l k) k = none := by
  induction l with
  | nil => rfl
  | cons kv rest ih =>
      rcases kv with ⟨k1, v1⟩
      simp only [removeA, lookupA, List.filter_cons] at ih ⊢
      by_cases h : k1 = k
      · simpa [h] using ih
      · have hb : (k1 != k) = true := bne_iff_ne.mpr h
        have hb2 : (k == k1) = false := beq_eq_false_iff_ne.mpr (Ne.symm h)
        simp [hb, List.lookup, hb2, ih]

/-!
Claim theorems.
-/

/-- C1, counterexample: in `sampleState` (current session set, empty
streaming buffer), delivering the single `content` event with payload `""`
(n = 1) followed by a `complete` event appends no message at all, while
the claim demands exactly one new assistant message. -/
theorem finalize_empty_chunk_appends_nothing :
    sampleState.currentSession.isSome = true ∧
    ( chatActions.finalizeStreamingMessage (deliverContents sampleState [""])
        { response_time_ms := some 5, sources := none } 7 "2026-01-03T00:00:00Z").messages
      = [] :=
  ⟨rfl, rfl⟩

/-- C1 (amended): for every store state with a current session set and an
empty streaming buffer, delivering `content` events c1..cn whose
concatenation is non-empty followed by one `complete` event with metadata
m appends exactly one new assistant-role message whose content is the
concatenation in arrival order, whose response_time_ms is taken from m and
whose sources are taken from m when present, else from the store's
streaming source list. -/
theorem finalize_concats_content_chunks
    (s : ChatState) (sess : ChatSession) (cs : List String) (m : CompleteMetadata)
    (now : Int) (nowISO : String)
    (hsess : s.currentSession = some sess)
    (hbuf : s.streaming.currentContent = "")
    (hne : concatAll cs ≠ "") :
    ( chatActions.finalizeStreamingMessage (deliverContents s cs) m now nowISO).messages
      = s.messages ++ [{
          id := "msg-" ++ toString now
          session_id := sess.id
          role := "assistant"
          content := concatAll cs
          created_at := nowISO
          response_time_ms := m.response_time_ms
          sources := some (m.sources.getD s.streaming.sources)
          search_query := none }] := by
  obtain ⟨hc, hsrc, hmsg, hcur⟩ := deliverContents_spec cs s
  rw [hbuf, String.empty_append] at hc
  unfold chatActions.finalizeStreamingMessage
  split
  next session hsession =>
      have hs2 : session = sess := by
        rw [hcur, hsess] at hsession
        injection hsession with h2
        exact h2.symm
      rw [if_neg (by rw [hc]; exact hne)]
      simp [hmsg, hc, hsrc, hs2]
  next hnone =>
      rw [hcur, hsess] at hnone
      simp at hnone

/-- C1, witness for the amended theorem at a concrete input. -/
theorem finalize_concats_content_chunks_witness :
    ( chatActions.finalizeStreamingMessage (deliverContents sampleState ["Hel", "lo"])
        { response_time_ms := some 12, sources := none } 7 "2026-01-03T00:00:00Z").messages
      = sampleState.messages ++ [{
          id := "msg-" ++ toString (7 : Int)
          session_id := sampleSession.id
          role := "assistant"
          content := concatAll ["Hel", "lo"]
          created_at := "2026-01-03T00:00:00Z"
          response_time_ms := some 12
          sources := some sampleState.streaming.sources
          search_query := none }] :=
  finalize_concats_content_chunks sampleState sampleSession ["Hel", "lo"]
    { response_time_ms := some 12, sources := none } 7 "2026-01-03T00:00:00Z"
    rfl rfl (by decide)

/-- If `loadSession` resolves, it has installed the fetched session as
current. -/
theorem loadSession_ok_current (s : ChatState) (st : Option String) (api : ChatApi)
    (sid : String)
    (h : ( chatActions.loadSession s st api sid).result = Except.ok ()) :
    ( chatActions.loadSession s st api sid).state.currentSession.isSome = true := by
  unfold chatActions.loadSession at h ⊢
  cases hgs : api.getSession sid with
  | error e => simp [hgs] at h
  | ok session =>
      cases hgm : api.getMessages sid with
      | error e => simp [hgs, hgm] at h
      | ok msgs => simp [hgs, hgm]

/-- If `createNewSession` resolves, it has installed the created session as
current. -/
theorem createNewSession_ok_current (s : ChatState) (st : Option String) (api : ChatApi)
    (h : ( chatActions.createNewSession s st api).result = Except.ok ()) :
    ( chatActions.createNewSession s st api).state.currentSession.isSome = true := by
  unfold chatActions.createNewSession at h ⊢
  cases hcs : api.createSession with
  | error e => simp [hcs] at h
  | ok session => simp [hcs]

/-- C2 (amended): after `initializeSession()` called with no session id
resolves, the current session is non-null (exactly one session is
current); the operation rejects exactly when the backend call that loads
or creates the chosen session fails, which can happen even when the
backend is not entirely unreachable. -/
theorem initializeSession_resolves_with_current_session
    (s : ChatState) (storage : Option String) (api : ChatApi)
    (h : (initializeSessionNoId s storage api).result = Except.ok ()) :
    (initializeSessionNoId s storage api).state.currentSession.isSome = true := by
  simp only [initializeSessionNoId] at h ⊢
  cases hch : chooseSessionToLoad storage ( chatActions.initStore s api).sessions with
  | none =>
      simp only [hch] at h ⊢
      exact createNewSession_ok_current _ _ _ h
  | some sid =>
      simp only [hch] at h ⊢
      cases hr : ( chatActions.loadSession ( chatActions.initStore s api) storage api sid).result with
      | ok u =>
          simp only [hr] at h ⊢
          exact loadSession_ok_current _ _ _ _ hr
      | error e =>
          simp only [hr] at h
          cases h

/-- C2, witness: with a reachable backend that lists no sessions and
creates one, initialization resolves and a session is current. -/
theorem initializeSession_resolves_with_current_session_witness :
    (initializeSessionNoId chatInitialState none okApi).state.currentSession.isSome = true :=
  initializeSession_resolves_with_current_session chatInitialState none okApi rfl

/-- C2, counterexample to the rejection clause: with a backend whose
session listing succeeds (so it is not entirely unreachable) but whose
session creation fails, `initializeSession()` rejects. -/
theorem initializeSession_rejects_with_reachable_backend :
    (initializeSessionNoId chatInitialState none cexApi).result = Except.error "server error" ∧
    ¬ ChatApi.entirelyUnreachable cexApi :=
  ⟨rfl, fun h => h.1 [] rfl⟩

/-- C3: reconnection policy. In the transport manager, a reconnect is
scheduled only while the per-path counter is below 5 — with counter value
n (the n-th attempt counting from 0) the scheduled delay is `1000 * 2^n`
ms, uncapped — and at the cap it abandons; the full trace of delays from a
fresh counter is the 5 entries 1000,2000,4000,8000,16000. In the chat
session adapter, with counter value a < 5, attempt n = a+1 is scheduled
after `min(1000 * 2^n, 30000)` ms, abandoning from counter 5 on, the full
trace being 2000,4000,8000,16000,30000. A successful open resets the
transport's counter for that path to zero. -/
theorem reconnect_backoff_policy :
    (∀ s endpoint a, lookupA s.reconnectAttempts endpoint = some a → a < 5 →
        (WebSocketService.attemptReconnect s endpoint).2 = some (1000 * 2 ^ a)) ∧
    (∀ s endpoint, 5 ≤ (lookupA s.reconnectAttempts endpoint).getD 0 →
        (WebSocketService.attemptReconnect s endpoint).2 = none) ∧
    transportDelaySeq 0 = [1000, 2000, 4000, 8000, 16000] ∧
    (∀ a, a < 5 →
        ChatWebSocket.attemptReconnect a = some (a + 1, min (1000 * 2 ^ (a + 1)) 30000)) ∧
    (∀ a, 5 ≤ a → ChatWebSocket.attemptReconnect a = none) ∧
    adapterDelaySeq 0 = [2000, 4000, 8000, 16000, 30000] ∧
    (∀ s endpoint,
        lookupA (WebSocketService.onopen s endpoint).reconnectAttempts endpoint = some 0) := by
  refine ⟨?_, ?_, ?_, ?_, ?_, ?_, ?_⟩
  · intro s endpoint a ha hlt
    simp [WebSocketService.attemptReconnect, ha, hlt]
  · intro s endpoint hge
    simp [WebSocketService.attemptReconnect, Nat.not_lt.mpr hge]
  · rw [transportDelaySeq, transportDelaySeq, transportDelaySeq, transportDelaySeq,
        transportDelaySeq, transportDelaySeq]
    norm_num
  · intro a ha
    simp [ChatWebSocket.attemptReconnect, Nat.not_le.mpr ha]
  · intro a ha
    simp [ChatWebSocket.attemptReconnect, ha]
  · rw [adapterDelaySeq, adapterDelaySeq, adapterDelaySeq, adapterDelaySeq,
        adapterDelaySeq, adapterDelaySeq]
    norm_num
  · intro s endpoint
    simp [WebSocketService.onopen, lookupA, setA, List.lookup]

/-- C3, witness at concrete inputs: counter 2 in the transport yields delay
4000 ms; counter 2 in the adapter schedules attempt 3 after 8000 ms; an
open resets the counter. -/
theorem reconnect_backoff_policy_witness :
    (WebSocketService.attemptReconnect wsSampleState "/chat/sess-1").2 = some (1000 * 2 ^ 2) ∧
    ChatWebSocket.attemptReconnect 2 = some (2 + 1, min (1000 * 2 ^ (2 + 1)) 30000) ∧
    lookupA (WebSocketService.onopen wsEmptyState "/chat/sess-1").reconnectAttempts "/chat/sess-1"
      = some 0 :=
  ⟨reconnect_backoff_policy.1 wsSampleState "/chat/sess-1" 2 rfl (by decide),
   reconnect_backoff_policy.2.2.2.1 2 (by decide),
   reconnect_backoff_policy.2.2.2.2.2.2 wsEmptyState "/chat/sess-1"⟩

/-- C4: with a current session set, an `error` wire message appends exactly
one assistant-role message whose content carries the error text
("❌ Error: " followed by the text, hence containing it), clears the
streaming state, raises one error notification, keeps the current session
in place and closes no connection. -/
theorem error_event_appends_error_message
    (s : ChatState) (sess : ChatSession) (notifs : List Notification) (err : String)
    (now : Int) (nowISO : String)
    (hsess : s.currentSession = some sess) :
    ( ChatInterface.handleErrorMessage s notifs err now nowISO).state.messages
      = s.messages ++ [{
          id := "error-" ++ toString now
          session_id := sess.id
          role := "assistant"
          content := "❌ Error: " ++ err
          created_at := nowISO
          response_time_ms := none
          sources := none
          search_query := none }] ∧
    ( ChatInterface.handleErrorMessage s notifs err now nowISO).state.streaming
      = { isStreaming := false, currentContent := "", statusMessage := "", sources := [] } ∧
    ( ChatInterface.handleErrorMessage s notifs err now nowISO).state.currentSession = some sess ∧
    ( ChatInterface.handleErrorMessage s notifs err now nowISO).notifications
      = notifs ++ [{ kind := "error", title := "Chat Error", message := err }] ∧
    ( ChatInterface.handleErrorMessage s notifs err now nowISO).closedConnection = false := by
  unfold ChatInterface.handleErrorMessage chatActions.addErrorMessage
  rw [hsess]
  simp

/-- C4, witness at a concrete state and error text. -/
theorem error_event_appends_error_message_witness :
    ( ChatInterface.handleErrorMessage sampleState [] "model unavailable" 7
        "2026-01-03T00:00:00Z").state.messages
      = sampleState.messages ++ [{
          id := "error-" ++ toString (7 : Int)
          session_id := sampleSession.id
          role := "assistant"
          content := "❌ Error: " ++ "model unavailable"
          created_at := "2026-01-03T00:00:00Z"
          response_time_ms := none
          sources := none
          search_query := none }] :=
  (error_event_appends_error_message sampleState sampleSession [] "model unavailable" 7
    "2026-01-03T00:00:00Z" rfl).1

/-- C5, counterexample: in a state with a current session, an empty
streaming buffer, but a non-empty status message, `finalizeStreamingMessage`
leaves the status message in place (it does not clear the streaming
state). -/
theorem finalize_keeps_status_when_buffer_empty :
    ( chatActions.finalizeStreamingMessage streamIdleState
        { response_time_ms := some 5, sources := none } 7
        "2026-01-03T00:00:00Z").streaming.statusMessage ≠ "" := by
  decide

/-- C5 (amended): `finalizeStreamingMessage` clears the streaming state
(buffer empty, flag false, status empty, sources empty) exactly when the
streaming buffer is non-empty and a current session is set; otherwise it
leaves the whole store state unchanged. -/
theorem finalize_clears_streaming_iff_finalized
    (s : ChatState) (m : CompleteMetadata) (now : Int) (nowISO : String) :
    (s.streaming.currentContent ≠ "" → s.currentSession.isSome = true →
        ( chatActions.finalizeStreamingMessage s m now nowISO).streaming
          = { isStreaming := false, currentContent := "", statusMessage := "", sources := [] }) ∧
    ((s.streaming.currentContent = "" ∨ s.currentSession = none) →
        chatActions.finalizeStreamingMessage s m now nowISO = s) := by
  constructor
  · intro hne hsome
    unfold chatActions.finalizeStreamingMessage
    split
    next sess hsess =>
        rw [if_neg hne]
    next hnone =>
        rw [hnone] at hsome
        simp at hsome
  · intro hor
    unfold chatActions.finalizeStreamingMessage
    split
    next sess hsess =>
        rcases hor with hbuf | hnone
        · rw [if_pos hbuf]
        · rw [hsess] at hnone
          exact Option.noConfusion hnone
    next hnone2 => rfl

/-- C5, witness: the streaming state is cleared at a busy buffer with a
session, and untouched at an empty buffer. -/
theorem finalize_clears_streaming_iff_finalized_witness :
    ( chatActions.finalizeStreamingMessage streamBusyState
        { response_time_ms := none, sources := none } 7 "2026-01-03T00:00:00Z").streaming
      = { isStreaming := false, currentContent := "", statusMessage := "", sources := [] } ∧
    chatActions.finalizeStreamingMessage streamIdleState
        { response_time_ms := none, sources := none } 7 "2026-01-03T00:00:00Z"
      = streamIdleState :=
  ⟨(finalize_clears_streaming_iff_finalized streamBusyState
      { response_time_ms := none, sources := none } 7 "2026-01-03T00:00:00Z").1
      (by decide) (by decide),
   (finalize_clears_streaming_iff_finalized streamIdleState
      { response_time_ms := none, sources := none } 7 "2026-01-03T00:00:00Z").2
      (Or.inl rfl)⟩

/-- C6, counterexample: an object carrying both a `type` and a `data` field
whose `data` is the falsy number 0 is not passed through unchanged by
`send`; it is wrapped in a fresh envelope instead. -/
theorem send_wraps_object_with_falsy_data :
    (JVal.getField falsyDataMsg "type").isSome = true ∧
    (JVal.getField falsyDataMsg "data").isSome = true ∧
    (WebSocketService.send wsOpenState "/chat/sess-1" falsyDataMsg 5).2
      = some (JVal.vObj
          [("type", JVal.vStr "message"), ("data", falsyDataMsg), ("timestamp", JVal.vNum 5)]) ∧
    JVal.vObj [("type", JVal.vStr "message"), ("data", falsyDataMsg), ("timestamp", JVal.vNum 5)]
      ≠ falsyDataMsg := by
  refine ⟨rfl, rfl, rfl, ?_⟩
  intro h
  simp [falsyDataMsg] at h

/-- C6 (amended): with an open connection, `send` transmits the message
itself when its `type` and `data` fields are both truthy (such a frame
carries a timestamp only if the caller put one in); any other message is
wrapped as `{type: "message", data: message, timestamp: now}`, and that
wrapper conforms to the wire envelope `{type: string, data: any,
timestamp: number}`. -/
theorem send_envelope_shape
    (s : WSState) (endpoint : String) (message : JVal) (now : Int)
    (hopen : lookupA s.connections endpoint = some ReadyState.OPEN) :
    ((truthyOpt (JVal.getField message "type") && truthyOpt (JVal.getField message "data")) = true →
        (WebSocketService.send s endpoint message now).2 = some message) ∧
    ((truthyOpt (JVal.getField message "type") && truthyOpt (JVal.getField message "data")) = false →
        (WebSocketService.send s endpoint message now).2
          = some (JVal.vObj
              [("type", JVal.vStr "message"), ("data", message), ("timestamp", JVal.vNum now)]) ∧
        isEnvelope (JVal.vObj
            [("type", JVal.vStr "message"), ("data", message), ("timestamp", JVal.vNum now)])
          = true) := by
  constructor
  · intro htrue
    simp [WebSocketService.send, hopen, htrue]
  · intro hfalse
    refine ⟨?_, rfl⟩
    simp [WebSocketService.send, hopen, hfalse]

/-- C6, witness: the chat adapter's own `sendMessage` payload has truthy
`type` and `data`, so it is passed through unchanged. -/
theorem send_envelope_shape_witness :
    (WebSocketService.send wsOpenState "/chat/sess-1"
        (ChatWebSocket.sendMessagePayload "hi" 3) 5).2
      = some (ChatWebSocket.sendMessagePayload "hi" 3) :=
  (send_envelope_shape wsOpenState "/chat/sess-1"
    (ChatWebSocket.sendMessagePayload "hi" 3) 5 rfl).1 rfl

/-- C7: `send` on a path with no OPEN connection transmits nothing, leaves
the transport state unchanged and returns normally (the code path is a
logged warning with no throw). -/
theorem send_disconnected_is_noop
    (s : WSState) (endpoint : String) (message : JVal) (now : Int)
    (h : lookupA s.connections endpoint ≠ some ReadyState.OPEN) :
    WebSocketService.send s endpoint message now = (s, none) := by
  unfold WebSocketService.send
  split
  · exact absurd ‹lookupA s.connections endpoint = some ReadyState.OPEN› h
  · rfl

/-- C7, witness at a transport state with no connections. -/
theorem send_disconnected_is_noop_witness :
    WebSocketService.send wsEmptyState "/chat/sess-1" falsyDataMsg 5 = (wsEmptyState, none) :=
  send_disconnected_is_noop wsEmptyState "/chat/sess-1" falsyDataMsg 5 (by decide)

/-- C8: `disconnect` on an existing connection closes with the
normal-closure code 1000 and discards the path's handlers and reconnect
counter (and its connection entry); the close handler schedules a
reconnect only for close codes different from 1000, so a closure with code
1000 never schedules one. -/
theorem disconnect_normal_close_no_reconnect :
    (∀ s endpoint ws, lookupA s.connections endpoint = some ws →
        (WebSocketService.disconnect s endpoint).2 = some (1000, "Manual disconnect") ∧
        lookupA (WebSocketService.disconnect s endpoint).1.handlers endpoint = none ∧
        lookupA (WebSocketService.disconnect s endpoint).1.reconnectAttempts endpoint = none ∧
        lookupA (WebSocketService.disconnect s endpoint).1.connections endpoint = none) ∧
    (∀ s endpoint, (WebSocketService.onclose s endpoint 1000).2 = none) ∧
    (∀ s endpoint code, (WebSocketService.onclose s endpoint code).2.isSome = true → code ≠ 1000) := by
  refine ⟨?_, ?_, ?_⟩
  · intro s endpoint ws h
    have hd : WebSocketService.disconnect s endpoint
        = ({ connections := removeA s.connections endpoint
             handlers := removeA s.handlers endpoint
             reconnectAttempts := removeA s.reconnectAttempts endpoint },
           some (1000, "Manual disconnect")) := by
      simp only [WebSocketService.disconnect, h]
    rw [hd]
    exact ⟨rfl, lookupA_removeA _ _, lookupA_removeA _ _, lookupA_removeA _ _⟩
  · intro s endpoint
    rfl
  · intro s endpoint code h hcode
    subst hcode
    simp [WebSocketService.onclose] at h

/-- C8, witness at a transport state with one open chat connection. -/
theorem disconnect_normal_close_no_reconnect_witness :
    (WebSocketService.disconnect wsSampleState "/chat/sess-1").2
      = some (1000, "Manual disconnect") ∧
    lookupA (WebSocketService.disconnect wsSampleState "/chat/sess-1").1.reconnectAttempts
      "/chat/sess-1" = none :=
  ⟨(disconnect_normal_close_no_reconnect.1 wsSampleState "/chat/sess-1" ReadyState.OPEN rfl).1,
   (disconnect_normal_close_no_reconnect.1 wsSampleState "/chat/sess-1" ReadyState.OPEN rfl).2.2.1⟩

/-- C9: after `deleteSession(id)` resolves, the id is absent from the
session list; if the deleted session was current, the current-session
reference becomes null and the transcript empties (no replacement is
created — the resulting state is exactly this local update); otherwise the
current session and transcript are untouched. -/
theorem deleteSession_removes_and_clears_current
    (s : ChatState) (sessionId : String) :
    chatActions.deleteSession s sessionId (Except.ok ())
      = ( chatActions.deleteSessionUpdate s sessionId, Except.ok ()) ∧
    (∀ sess ∈ ( chatActions.deleteSessionUpdate s sessionId).sessions, sess.id ≠ sessionId) ∧
    (s.currentSession.map ChatSession.id = some sessionId →
        ( chatActions.deleteSessionUpdate s sessionId).currentSession = none ∧
        ( chatActions.deleteSessionUpdate s sessionId).messages = []) ∧
    (s.currentSession.map ChatSession.id ≠ some sessionId →
        ( chatActions.deleteSessionUpdate s sessionId).currentSession = s.currentSession ∧
        ( chatActions.deleteSessionUpdate s sessionId).messages = s.messages) := by
  refine ⟨rfl, ?_, ?_, ?_⟩
  · intro sess hmem
    simp only [chatActions.deleteSessionUpdate, List.mem_filter] at hmem
    exact bne_iff_ne.mp hmem.2
  · intro hcur
    unfold chatActions.deleteSessionUpdate
    simp [hcur]
  · intro hcur
    unfold chatActions.deleteSessionUpdate
    simp [hcur]

/-- C9, witness: deleting the current session clears the reference and the
transcript. -/
theorem deleteSession_removes_and_clears_current_witness :
    ( chatActions.deleteSessionUpdate sampleState "sess-1").currentSession = none ∧
    ( chatActions.deleteSessionUpdate sampleState "sess-1").messages = [] :=
  (deleteSession_removes_and_clears_current sampleState "sess-1").2.2.1 (by decide)

/-- C10: when the backend delete rejects, `deleteSession` rethrows the
error and the store state is returned completely unchanged — the local
mutation happens only after the call succeeds. -/
theorem deleteSession_api_failure_leaves_state
    (s : ChatState) (sessionId : String) (e : String) :
    chatActions.deleteSession s sessionId (Except.error e) = (s, Except.error e) :=
  rfl
